import Mathlib

/-!
Verification development for the Browserose-MCP tiered snapshot and
cross-frame reference resolution engine.

The definitions below are a shallow embedding of the TypeScript sources:
`src/snapshot.ts` (in-page collectors and the reference store),
`src/actions.ts` (ref resolution: click, hover, type, selectOption),
`src/cdp.ts` (Tier A accessibility-tree collector, Tier B layout-snapshot
collector), and the `browser_snapshot_frame` dispatch in `src/tools.ts`.
Asynchronous protocol round-trips (script evaluation, CDP responses) are
modelled as explicit inputs; the mutable module-level ref map is modelled
as an association list threaded through the operations.  JS string
truthiness, `||`, `??`, `trim` and `slice` are modelled explicitly.
-/

namespace Browserose

/-- JS string truthiness: only the empty string is falsy. -/
def jsTruthy (s : String) : Bool := !(s == "")

/-- JS truthiness of a nullable string (`undefined`/`null` are falsy). -/
def truthyOpt (o : Option String) : Bool :=
  match o with
  | some s => jsTruthy s
  | none => false

/-- JS `a || b` specialised to strings. -/
def jsOr (a b : String) : String := if jsTruthy a then a else b

/-- Whitespace characters removed by JS `trim`. -/
def isWSChar (c : Char) : Bool :=
  c == ' ' || c == '\t' || c == '\n' || c == '\r' || c == '\x0c'

/-- Model of JS `s.trim()`: strip leading and trailing whitespace. -/
def jsTrim (s : String) : String :=
  ⟨((s.data.dropWhile isWSChar).reverse.dropWhile isWSChar).reverse⟩

/-- Model of JS `s.slice(0, n)`: first `n` characters. -/
def jsSlice (s : String) (n : Nat) : String := ⟨s.data.take n⟩

/-- Model of JS `s.toUpperCase()` (character-wise). -/
def jsToUpper (s : String) : String := ⟨s.data.map Char.toUpper⟩

/-- Model of JS `s.toLowerCase()` (character-wise). -/
def jsToLower (s : String) : String := ⟨s.data.map Char.toLower⟩

/-- Model of the JS global replace of `"` by `\"` in emitted names. -/
def escQuotes (s : String) : String :=
  ⟨(s.data.map (fun c => if c = '"' then ['\\', '"'] else [c])).flatten⟩

/-- A viewport point (CDP coordinates are modelled exactly over `ℚ`). -/
structure Point where
  x : ℚ
  y : ℚ
deriving DecidableEq

/-- `RefEntry` from `src/snapshot.ts`: role, name, and the optional
CDP resolution fields.  An entry with neither `backendDOMNodeId` nor
`viewportClickPoint` is resolved by a role+name locator. -/
structure RefEntry where
  role : String
  name : String
  frameId : Option String := none
  backendDOMNodeId : Option Nat := none
  viewportClickPoint : Option Point := none
deriving DecidableEq

/-- The module-level `refMap : Map frameKey (Map ref RefEntry)`,
modelled as an association list (insertion order of keys is irrelevant
to lookup). -/
abbrev RefStore := List (String × List (String × RefEntry))

/-- `setRefMap`: overwrite the entry set stored under `key`. -/
def setRefMap (store : RefStore) (key : String)
    (entries : List (String × RefEntry)) : RefStore :=
  (key, entries) :: store.filter (fun p => p.1 != key)

/-- `getRefEntry`: `refMap.get(frameKey)?.get(ref)`. -/
def getRefEntry (store : RefStore) (frameKey ref : String) : Option RefEntry :=
  (List.lookup frameKey store).bind (fun es => List.lookup ref es)

/-- A `{ role, name }` record returned by the in-page SNAPSHOT_SCRIPT. -/
structure PageNode where
  role : String
  name : String
deriving DecidableEq

/-- The `RefEntry` stored for an in-page node: no CDP fields. -/
def mkRefEntry (n : PageNode) : RefEntry :=
  { role := n.role, name := n.name }

/-- Ref assignment of `snapshotMainFrame` / `snapshotFrame`:
`ref = prefix + (i + 1)` over the collected nodes in order. -/
def refsFrom (pfx : String) (raw : List PageNode) : List (String × RefEntry) :=
  raw.enum.map (fun p => (pfx ++ toString (p.1 + 1), mkRefEntry p.2))

/-- Entry set built by `snapshotFrame` (ref prefix `"f1e"`). -/
def frameEntries (raw : List PageNode) : List (String × RefEntry) :=
  refsFrom ("f1e") raw

/-- Entry set built by `snapshotMainFrame` (ref prefix `"s1e"`). -/
def mainEntries (raw : List PageNode) : List (String × RefEntry) :=
  refsFrom ("s1e") raw

/-- One emitted tree line: escape quotes in the name, drop the name part
when the name is falsy. -/
def snapLine (role name ref : String) : String :=
  let nameEsc :=
    if jsTruthy name then " \"" ++ escQuotes name ++ "\"" else ""
  "  - " ++ role ++ nameEsc ++ " [ref=" ++ ref ++ "]"

/-- Result of a snapshot: the emitted tree lines and the ref prefix. -/
structure SnapResult where
  lines : List String
  refPfx : String
deriving DecidableEq

/-- Failure of `snapshotFrame` when the in-frame evaluation throws. -/
inductive SnapErr where
  | frameEvalFailed
deriving DecidableEq

/-- `snapshotFrame` (src/snapshot.ts): run SNAPSHOT_SCRIPT in the frame.
The evaluation outcome is an explicit input; on failure the function
rethrows (before any store write).  On success it assigns refs, stores
the entry set under the frame selector, and returns the tree text. -/
def snapshotFrameM (store : RefStore) (frameSelector : String)
    (evalRes : Except Unit (List PageNode)) :
    Except SnapErr SnapResult × RefStore :=
  match evalRes with
  | .error _ => (.error .frameEvalFailed, store)
  | .ok raw =>
    let entries := frameEntries raw
    let lines := ("- frame " ++ frameSelector ++ " [ref=f1e0]:") ::
      raw.enum.map (fun p => snapLine p.2.role p.2.name ("f1e" ++ toString (p.1 + 1)))
    let lines := if lines.length == 1
      then lines ++ ["  - (frame empty or still loading)"] else lines
    (.ok { lines := lines, refPfx := "f1e" }, setRefMap store frameSelector entries)

/-- `snapshotMainFrame` (src/snapshot.ts): a failed evaluation is caught
and replaced by the empty node list; the store entry for the main frame
key `""` is overwritten in every case. -/
def snapshotMainFrameM (store : RefStore)
    (evalRes : Except Unit (List PageNode)) : SnapResult × RefStore :=
  let raw := match evalRes with
    | .ok r => r
    | .error _ => []
  let entries := mainEntries raw
  let lines := ("- document [ref=s1e0]:") ::
    raw.enum.map (fun p => snapLine p.2.role p.2.name ("s1e" ++ toString (p.1 + 1)))
  let lines := if lines.length == 1
    then lines ++ ["  - (no focusable elements; page may have loaded in an iframe)"]
    else lines
  ({ lines := lines, refPfx := "s1e" }, setRefMap store ("") entries)

/-! ## In-page name derivation (SNAPSHOT_SCRIPT `getName`) -/

/-- The attributes and properties of a DOM element consulted by the
in-page `getName`.  `ariaLabel` and `title` model `getAttribute` results
(`none` = attribute absent); `placeholder` and `value` are the (always
string valued) input properties; `textContent` is nullable. -/
structure Element where
  ariaLabel : Option String := none
  title : Option String := none
  isHTMLInput : Bool := false
  inputType : String := "text"
  placeholder : String := ""
  value : String := ""
  textContent : Option String := some ("")
deriving DecidableEq

/-- `getName` from SNAPSHOT_SCRIPT (src/snapshot.ts): aria-label, then
title, then placeholder (inputs), then `value || text.slice(0,100) || ""`
for submit/button/reset inputs, then `text.slice(0,200) || "(unnamed)"`. -/
def getName (el : Element) : String :=
  if truthyOpt el.ariaLabel then jsTrim (el.ariaLabel.getD (""))
  else if truthyOpt el.title then jsTrim (el.title.getD (""))
  else if el.isHTMLInput && jsTruthy el.placeholder then jsTrim el.placeholder
  else if el.isHTMLInput &&
      (el.inputType == "submit" || el.inputType == "button" || el.inputType == "reset") then
    jsOr (jsOr el.value (jsSlice (jsTrim (el.textContent.getD (""))) 100)) ("")
  else
    jsOr (jsSlice (jsTrim (el.textContent.getD (""))) 200) ("(unnamed)")

/-! ## Ref resolution and actions (src/actions.ts) -/

/-- Resolution failure: `Ref not found: <ref> (take a snapshot first)`. -/
inductive ActionErr where
  | refNotFound (ref : String)
deriving DecidableEq

/-- A Playwright role+name locator, scoped to a frame selector when one
was passed (`.first()` semantics: the first element of the frame matching
the role and name). -/
structure Locator where
  frameSelector : Option String
  role : String
  name : String
deriving DecidableEq

/-- `getLocatorForRef`: look the ref up under `frameSelector ?? ""` and
build `getByRole(entry.role, { name: entry.name }).first()`. -/
def getLocatorForRefM (store : RefStore) (frameSelector : Option String)
    (ref : String) : Except ActionErr Locator :=
  let frameKey := frameSelector.getD ("")
  match getRefEntry store frameKey ref with
  | none => .error (.refNotFound ref)
  | some entry => .ok { frameSelector := frameSelector, role := entry.role, name := entry.name }

/-- The input dispatch a `click` call performs. -/
inductive ClickDispatch where
  /-- `Input.dispatchMouseEvent` press+release at a viewport point. -/
  | cdpPoint (p : Point)
  /-- `clickViaCDP`: box-model centre click on a backend DOM node. -/
  | cdpNode (backendId : Nat)
  /-- `locator.click()` on the role+name locator. -/
  | locatorClick (loc : Locator)
  /-- The CDP branch was entered but neither field was set: the source
  returns without dispatching (unreachable given the branch guard). -/
  | cdpNone
deriving DecidableEq

/-- `click` (src/actions.ts): look up the entry; with a browser context
and a CDP field set, dispatch through CDP (viewport point first, else
backend node); otherwise resolve a locator and click it.  The store is
returned unchanged: the source never writes the ref map here. -/
def clickM (store : RefStore) (ref : String) (frameSelector : Option String)
    (contextPresent : Bool) : Except ActionErr ClickDispatch × RefStore :=
  let frameKey := frameSelector.getD ("")
  match getRefEntry store frameKey ref with
  | none => (.error (.refNotFound ref), store)
  | some entry =>
    if contextPresent && (entry.backendDOMNodeId.isSome || entry.viewportClickPoint.isSome) then
      match entry.viewportClickPoint, entry.backendDOMNodeId with
      | some p, _ => (.ok (.cdpPoint p), store)
      | none, some b => (.ok (.cdpNode b), store)
      | none, none => (.ok .cdpNone, store)
    else
      match getLocatorForRefM store frameSelector ref with
      | .ok loc => (.ok (.locatorClick loc), store)
      | .error e => (.error e, store)

/-- `hover`: resolve the locator and hover it. -/
def hoverM (store : RefStore) (ref : String) (frameSelector : Option String) :
    Except ActionErr Locator × RefStore :=
  (getLocatorForRefM store frameSelector ref, store)

/-- The dispatch a `type` call performs. -/
inductive TypeDispatch where
  | fillByLocator (loc : Locator) (text : String) (submit : Bool)
  | fillFocusedInFrame (frameSelector : String) (text : String) (submit : Bool)
  | keyboardType (text : String) (submit : Bool)
deriving DecidableEq

/-- `type` (src/actions.ts): with a ref, resolve the locator and fill it;
without one, fill the focused element of the frame or type globally. -/
def typeM (store : RefStore) (text : String) (ref : Option String)
    (frameSelector : Option String) (submit : Bool) :
    Except ActionErr TypeDispatch × RefStore :=
  match ref with
  | some r =>
    match getLocatorForRefM store frameSelector r with
    | .ok loc => (.ok (.fillByLocator loc text submit), store)
    | .error e => (.error e, store)
  | none =>
    match frameSelector with
    | some f => (.ok (.fillFocusedInFrame f text submit), store)
    | none => (.ok (.keyboardType text submit), store)

/-- `selectOption`: resolve the locator and select the given values. -/
def selectOptionM (store : RefStore) (ref : String) (values : List String)
    (frameSelector : Option String) :
    Except ActionErr (Locator × List String) × RefStore :=
  match getLocatorForRefM store frameSelector ref with
  | .ok loc => (.ok (loc, values), store)
  | .error e => (.error e, store)

/-! ## Tier A: protocol accessibility-tree collector (src/cdp.ts) -/

/-- The interactive-role allowlist `INTERACTIVE_ROLES`. -/
def INTERACTIVE_ROLES : List String :=
  ["button", "link", "textbox", "checkbox", "radio", "combobox", "tab",
   "menuitem", "option", "switch", "searchbox", "spinbutton",
   "heading", "region", "graphic", "img", "group"]

/-- A node of the `Accessibility.getFullAXTree` response. -/
structure AXNode where
  nodeId : Option String := none
  parentId : Option String := none
  ignored : Bool := false
  role : Option String := none
  name : Option String := none
  backendDOMNodeId : Option Nat := none
  childIds : List String := []
deriving DecidableEq

/-- `axRole`: `node.role?.value ?? "generic"` (nullish, not truthy). -/
def axRole (n : AXNode) : String := n.role.getD ("generic")

/-- `axName`: the trimmed name sliced to 200 characters when the name and
its trim are both truthy, else the `"(unnamed)"` sentinel. -/
def axName (n : AXNode) : String :=
  let nm := n.name.getD ("")
  if truthyOpt n.name && jsTruthy (jsTrim nm) then jsSlice (jsTrim nm) 200
  else "(unnamed)"

/-- `isInteractive`: the role is in the allowlist or is `"generic"`. -/
def isInteractive (n : AXNode) : Bool :=
  INTERACTIVE_ROLES.contains (axRole n) || axRole n == "generic"

/-- The `byId` map: built by iterating the nodes and `Map.set`ting each
`nodeId`, so for duplicate ids the last node wins. -/
def byIdGet (nodes : List AXNode) (id : String) : Option AXNode :=
  List.lookup id ((nodes.filterMap (fun n => n.nodeId.map (fun i => (i, n)))).reverse)

/-- The per-node filter of the strict walk: not ignored, has a backend
DOM node id, and `isInteractive`. -/
def keepStrict (n : AXNode) : Bool :=
  !n.ignored && n.backendDOMNodeId.isSome && isInteractive n

/-- `walk` of `collectInteractiveNodes`: pre-order descent through
`childIds` via the `byId` map.  The source recursion terminates exactly
on cycle-free graphs, where any path visits at most `nodes.length`
distinct ids; the fuel argument makes the model total and agrees with
the source whenever the fuel is at least that bound. -/
def walkFuel (nodes : List AXNode) : Nat → String → List AXNode
  | 0, _ => []
  | fuel + 1, id =>
    match byIdGet nodes id with
    | none => []
    | some node =>
      (if keepStrict node then [node] else []) ++
        (node.childIds.map (walkFuel nodes fuel)).flatten

/-- The strict pass of `collectInteractiveNodes`: walk from every root
(no truthy `parentId`) whose `nodeId` is truthy. -/
def strictWalk (nodes : List AXNode) : List AXNode :=
  let roots := nodes.filter (fun n => !truthyOpt n.parentId)
  (roots.map (fun n =>
    if truthyOpt n.nodeId then walkFuel nodes (nodes.length + 1) (n.nodeId.getD (""))
    else [])).flatten

/-- The second-chance filter: not ignored, has a backend DOM node id,
and a truthy role value or name value. -/
def secondChance (n : AXNode) : Bool :=
  !n.ignored && n.backendDOMNodeId.isSome && (truthyOpt n.role || truthyOpt n.name)

/-- `collectInteractiveNodes`: the strict walk, or, when it finds nothing
in a nonempty node list, every node passing the second-chance filter. -/
def collectInteractiveNodes (nodes : List AXNode) : List AXNode :=
  let out := strictWalk nodes
  if out.isEmpty && !nodes.isEmpty then nodes.filter secondChance else out

/-- `CDPRefEntry` from src/cdp.ts. -/
structure CDPRefEntry where
  role : String
  name : String
  frameId : String
  backendDOMNodeId : Option Nat := none
  viewportClickPoint : Option Point := none
deriving DecidableEq

/-- `buildSnapshotFromAXNodes`: refs `refPfx + (i+1)` over the collected
interactive nodes; an entry (tagged with the backend DOM node id) is
stored for each node carrying one; a diagnostic line is appended when
nothing matched. -/
def buildSnapshotFromAXNodes (nodes : List AXNode) (frameLabel refPfx frameId : String) :
    List String × List (String × CDPRefEntry) :=
  let interactive := collectInteractiveNodes nodes
  let entries := interactive.enum.filterMap (fun p =>
    match p.2.backendDOMNodeId with
    | some b => some (refPfx ++ toString (p.1 + 1),
        { role := axRole p.2, name := axName p.2, frameId := frameId,
          backendDOMNodeId := some b : CDPRefEntry })
    | none => none)
  let lines := ("- frame " ++ frameLabel ++ " [ref=" ++ refPfx ++ "0]:") ::
    interactive.enum.map (fun p =>
      snapLine (axRole p.2) (axName p.2) (refPfx ++ toString (p.1 + 1)))
  let lines := if lines.length == 1
    then lines ++ ["  - (CDP: " ++ toString nodes.length ++ " AX nodes, none matched)"]
    else lines
  (lines, entries)

/-! ## Tier B: layout-snapshot collector (src/cdp.ts, DOMSnapshot) -/

/-- The iframe owner element content box in viewport coordinates, as
returned by `getIframeViewportRect`. -/
structure Rect where
  x : ℚ
  y : ℚ
  w : ℚ
  h : ℚ
deriving DecidableEq

/-- A rare-boolean table `{ index, value }` of `DOMSnapshot`. -/
structure RareBool where
  index : List Nat
  value : List Nat
deriving DecidableEq

/-- The per-document tables of a `DOMSnapshot.captureSnapshot` response
that `snapshotFrameViaDOMSnapshot` reads. -/
structure DocSnap where
  nodeIndexL : List Nat
  boundsL : List (List ℚ)
  nodeNameL : List Nat
  attributesL : List (List Nat)
  isClickableL : Option RareBool := none
  scrollOffsetX : ℚ := 0
  scrollOffsetY : ℚ := 0
deriving DecidableEq

/-- `getRareBooleanAt`: look the node index up in the rare-boolean
table; a missing table, index or value is `false`. -/
def getRareBooleanAt (d : Option RareBool) (nodeIndex : Nat) : Bool :=
  match d with
  | none => false
  | some data =>
    match data.index.findIdx? (fun j => j == nodeIndex) with
    | some i =>
      match data.value.get? i with
      | some v => v != 0
      | none => false
    | none => false

/-- `CLICKABLE_TAGS`. -/
def CLICKABLE_TAGS : List String := ["BUTTON", "A", "INPUT", "SELECT", "TEXTAREA"]

/-- The pair scan of `getAttr`: compare each attribute-name string
(lower-cased) and on a match return the value string (or `null` when
the value index is out of range); a trailing odd index is ignored. -/
def getAttrPairs (strTable : List String) (target : String) :
    List Nat → Option String
  | a :: b :: rest =>
    if ((strTable.get? a).map jsToLower) == some (jsToLower target)
    then strTable.get? b
    else getAttrPairs strTable target rest
  | _ => none

/-- `getAttr`: scan the attribute index pairs of `nodeIdx`. -/
def getAttrM (doc : DocSnap) (strTable : List String) (nodeIdx : Nat)
    (name : String) : Option String :=
  match doc.attributesL.get? nodeIdx with
  | none => none
  | some attrs => getAttrPairs strTable name attrs

/-- Tier B label: `(ariaLabel ?? title ?? tag ?? "element")` trimmed,
sliced to 200 characters, defaulting to the sentinel when falsy. -/
def domLabel (aria titleAttr tag : Option String) : String :=
  jsOr (jsSlice (jsTrim ((aria <|> titleAttr <|> tag).getD ("element"))) 200) ("(unnamed)")

/-- Tier B role from the upper-cased tag name. -/
def domRole (tagUpper : String) : String :=
  if tagUpper == "A" then "link"
  else if tagUpper == "BUTTON" then "button"
  else if tagUpper == "INPUT" then "textbox"
  else "button"

/-- Whether layout row `i` (laid-out node `domIdx`) produces an entry,
and with which data: the box must have at least four coordinates with
positive width and height, and the node must be clickable (rare boolean,
clickable tag, or an explicit `role` attribute).  Returns the box and
the derived role and label. -/
def rowData (doc : DocSnap) (strTable : List String) (i domIdx : Nat) :
    Option (ℚ × ℚ × ℚ × ℚ × String × String) :=
  match doc.boundsL.get? i with
  | some (b0 :: b1 :: b2 :: b3 :: _) =>
    if b2 ≤ 0 || b3 ≤ 0 then none
    else
      let tagOpt := (doc.nodeNameL.get? domIdx).bind (fun s => strTable.get? s)
      let tagUpper := jsToUpper (tagOpt.getD (""))
      let clickable := getRareBooleanAt doc.isClickableL domIdx ||
        CLICKABLE_TAGS.contains tagUpper ||
        (getAttrM doc strTable domIdx ("role")).isSome
      if clickable then
        some (b0, b1, b2, b3, domRole tagUpper,
          domLabel (getAttrM doc strTable domIdx ("aria-label"))
            (getAttrM doc strTable domIdx ("title")) tagOpt)
      else none
  | _ => none

/-- The loop of `snapshotFrameViaDOMSnapshot` over the enumerated layout
rows `(i, nodeIndex[i])`, carrying the running `refIdx`: each included
row stores a viewport-point entry at the box centre shifted by the
document scroll offset and the iframe viewport origin. -/
def domSnapRows (doc : DocSnap) (strTable : List String) (rect : Rect)
    (refPfx frameId : String) :
    List (Nat × Nat) → Nat → List (String × CDPRefEntry) × List String
  | [], _ => ([], [])
  | (i, domIdx) :: rest, refIdx =>
    match rowData doc strTable i domIdx with
    | none => domSnapRows doc strTable rect refPfx frameId rest refIdx
    | some (b0, b1, b2, b3, role, label) =>
      let centerX := b0 + b2 / 2 - doc.scrollOffsetX
      let centerY := b1 + b3 / 2 - doc.scrollOffsetY
      let p : Point := { x := rect.x + centerX, y := rect.y + centerY }
      let ref := refPfx ++ toString (refIdx + 1)
      let e : CDPRefEntry := { role := role, name := label, frameId := frameId,
                               viewportClickPoint := some p }
      let tail := domSnapRows doc strTable rect refPfx frameId rest (refIdx + 1)
      ((ref, e) :: tail.1, snapLine role label ref :: tail.2)

/-- `snapshotFrameViaDOMSnapshot`: `none` models every null return of
the source (capture failed, the document for the frame id is absent, the
iframe owner box is unavailable, or no entry was produced).  Otherwise
the emitted lines (with the DOMSnapshot header) and the entry list. -/
def snapshotFrameViaDOMSnapshotM (resp : Option (DocSnap × List String))
    (rectOpt : Option Rect) (frameKey refPfx frameId : String) :
    Option (List String × List (String × CDPRefEntry)) :=
  match resp with
  | none => none
  | some (doc, strTable) =>
    match rectOpt with
    | none => none
    | some rect =>
      let res := domSnapRows doc strTable rect refPfx frameId doc.nodeIndexL.enum 0
      if res.1.isEmpty then none
      else some (("- frame " ++ frameKey ++ " [ref=" ++ refPfx ++ "0] (DOMSnapshot):") :: res.2,
        res.1)

/-! ## The `browser_snapshot_frame` tool dispatch (src/tools.ts) -/

/-- The collection tiers. -/
inductive Tier where
  | inPage
  | tierA
  | tierB
deriving DecidableEq

/-- A tool call result: the text lines and the error flag. -/
structure ToolRes where
  lines : List String
  isError : Bool
deriving DecidableEq

/-- The environment of one `browser_snapshot_frame` call: the outcome
each collaborator would deliver.  `frameIdFound` is the frame id the
CDP frame-tree matching resolves (including its positional fallback),
`none` when no id could be determined. -/
structure SnapFrameEnv where
  inPageEval : Except Unit (List PageNode)
  contextPresent : Bool
  frameIdFound : Option String
  axNodes : List AXNode
  domResp : Option (DocSnap × List String)
  iframeRect : Option Rect

/-- JS `frameSelector.includes(">>")`. -/
def hasChainDelim (s : String) : Bool := go s.data
where
  go : List Char → Bool
    | '>' :: '>' :: _ => true
    | _ :: t => go t
    | [] => false

/-- The tools.ts conversion of a `CDPRefEntry` into the stored
`RefEntry` (both CDP fields are copied through). -/
def cdpEntryToRefEntry (e : CDPRefEntry) : RefEntry :=
  { role := e.role, name := e.name, frameId := some e.frameId,
    backendDOMNodeId := e.backendDOMNodeId,
    viewportClickPoint := e.viewportClickPoint }

/-- The CDP phase of `browser_snapshot_frame`: with a context and a
resolved frame id, take the Tier A snapshot; when it stores no entry,
attempt Tier B and keep its result when it produced one; store the
winning entry set under the frame selector.  Without a context or frame
id the call fails.  `pre` records the tiers already attempted. -/
def cdpPhase (store : RefStore) (sel : String) (env : SnapFrameEnv)
    (pre : List Tier) : List Tier × ToolRes × RefStore :=
  if env.contextPresent then
    match env.frameIdFound with
    | some fid =>
      let aRes := buildSnapshotFromAXNodes env.axNodes sel ("f1e") fid
      if aRes.2.isEmpty then
        match snapshotFrameViaDOMSnapshotM env.domResp env.iframeRect sel ("f1e") fid with
        | some bRes =>
          (pre ++ [Tier.tierA, Tier.tierB], { lines := bRes.1, isError := false },
            setRefMap store sel (bRes.2.map (fun p => (p.1, cdpEntryToRefEntry p.2))))
        | none =>
          (pre ++ [Tier.tierA, Tier.tierB], { lines := aRes.1, isError := false },
            setRefMap store sel (aRes.2.map (fun p => (p.1, cdpEntryToRefEntry p.2))))
      else
        (pre ++ [Tier.tierA], { lines := aRes.1, isError := false },
          setRefMap store sel (aRes.2.map (fun p => (p.1, cdpEntryToRefEntry p.2))))
    | none =>
      let failRes : ToolRes :=
        { lines := ["Frame snapshot failed (cross-origin or invalid selector): " ++ sel],
          isError := true }
      (pre, failRes, store)
  else
    let failRes : ToolRes :=
      { lines := ["Frame snapshot failed (cross-origin or invalid selector): " ++ sel],
        isError := true }
    (pre, failRes, store)

/-- The `browser_snapshot_frame` case of the tool dispatch: reject an
empty selector; for a non-chained selector attempt the in-page collector
first and return its snapshot on success; on its failure, or for a
chained selector from the start, run the CDP phase. -/
def browserSnapshotFrameM (store : RefStore) (sel : String) (env : SnapFrameEnv) :
    List Tier × ToolRes × RefStore :=
  if sel == "" then ([], { lines := ["Missing frameSelector"], isError := true }, store)
  else if hasChainDelim sel then
    cdpPhase store sel env []
  else
    match snapshotFrameM store sel env.inPageEval with
    | (.ok r, store2) => ([Tier.inPage], { lines := r.lines, isError := false }, store2)
    | (.error _, _) => cdpPhase store sel env [Tier.inPage]

/-! ## Theorems -/

/-- Lookup under a key that was just overwritten sees exactly the new
entry set. -/
theorem getRefEntry_setRefMap_self (store : RefStore) (k r : String)
    (entries : List (String × RefEntry)) :
    getRefEntry (setRefMap store k entries) k r = List.lookup r entries := by
  simp [getRefEntry, setRefMap, List.lookup]

/-- Claim C1, counterexample: re-snapshotting frame key `"k"` (one node
each time) reuses the ref id `"f1e1"`, so after the re-snapshot the old
id resolves to the new entry instead of failing with ReferenceNotFound:
refIds issued by the earlier snapshot are not absent from the later
entry set. -/
theorem C1_counterexample :
    getRefEntry
      (setRefMap (setRefMap [] ("k") (frameEntries [⟨"button", "Old"⟩])) ("k")
        (frameEntries [⟨"link", "New"⟩])) ("k") ("f1e1") =
      some { role := "link", name := "New" } := by decide

/-- Claim C1, amended: re-snapshotting a frame key replaces its entry set
(last snapshot wins), and any refId is afterwards looked up solely
against the new entry set — an old id fails with ReferenceNotFound
exactly when the same id string is absent from the new set; since every
snapshot reassigns ids from the same prefix starting at 1, an old id
whose ordinal position exists in the new set is reused and resolves to
the new set's element at that position. -/
theorem C1_resnapshot_last_wins (store : RefStore) (k : String)
    (raw1 raw2 : List PageNode) (r : String) :
    getRefEntry
      (setRefMap (setRefMap store k (frameEntries raw1)) k (frameEntries raw2)) k r =
      List.lookup r (frameEntries raw2) := by
  simp [getRefEntry, setRefMap, List.lookup]

/-- Claim C3: every ref-resolving action on a refId absent from the
current entry set of its frame key (including a never-snapshotted key)
fails with the ReferenceNotFound error, dispatches nothing, and returns
the reference store unchanged. -/
theorem C3_absent_ref_fails (store : RefStore) (ref : String)
    (fs : Option String) (ctx : Bool) (txt : String) (vals : List String)
    (sub : Bool) (h : getRefEntry store (fs.getD ("")) ref = none) :
    clickM store ref fs ctx = (.error (.refNotFound ref), store) ∧
    hoverM store ref fs = (.error (.refNotFound ref), store) ∧
    typeM store txt (some ref) fs sub = (.error (.refNotFound ref), store) ∧
    selectOptionM store ref vals fs = (.error (.refNotFound ref), store) := by
  refine ⟨?_, ?_, ?_, ?_⟩ <;>
    simp [clickM, hoverM, typeM, selectOptionM, getLocatorForRefM, h]

/-- Claim C3, witness: on the empty store the ref `"f1e9"` fails in all
four actions. -/
theorem C3_absent_ref_fails_witness :
    clickM [] ("f1e9") none true = (.error (.refNotFound ("f1e9")), []) ∧
    hoverM [] ("f1e9") none = (.error (.refNotFound ("f1e9")), []) ∧
    typeM [] ("x") (some ("f1e9")) none false = (.error (.refNotFound ("f1e9")), []) ∧
    selectOptionM [] ("f1e9") [] none = (.error (.refNotFound ("f1e9")), []) :=
  C3_absent_ref_fails [] ("f1e9") none true ("x") [] false rfl

/-- Claim C10: for locator-resolved entries (no CDP fields), action-time
re-finding depends only on the frame selector and the entry's role and
name — two refs of the same frame key whose entries agree on role and
name produce the same first-match locator, and click, hover, type-by-ref
and selectOption behave identically on them. -/
theorem C10_locator_depends_on_role_name_only (store : RefStore)
    (fs : Option String) (r1 r2 : String) (e1 e2 : RefEntry) (txt : String)
    (vals : List String) (sub ctx : Bool)
    (h1 : getRefEntry store (fs.getD ("")) r1 = some e1)
    (h2 : getRefEntry store (fs.getD ("")) r2 = some e2)
    (hrole : e1.role = e2.role) (hname : e1.name = e2.name)
    (hb1 : e1.backendDOMNodeId = none) (hp1 : e1.viewportClickPoint = none)
    (hb2 : e2.backendDOMNodeId = none) (hp2 : e2.viewportClickPoint = none) :
    getLocatorForRefM store fs r1 = getLocatorForRefM store fs r2 ∧
    hoverM store r1 fs = hoverM store r2 fs ∧
    typeM store txt (some r1) fs sub = typeM store txt (some r2) fs sub ∧
    selectOptionM store r1 vals fs = selectOptionM store r2 vals fs ∧
    clickM store r1 fs ctx = clickM store r2 fs ctx := by
  have hl : getLocatorForRefM store fs r1 = getLocatorForRefM store fs r2 := by
    simp [getLocatorForRefM, h1, h2, hrole, hname]
  refine ⟨hl, ?_, ?_, ?_, ?_⟩
  · simp [hoverM, hl]
  · simp [typeM, hl]
  · simp [selectOptionM, hl]
  · simp [clickM, h1, h2, hb1, hb2, hp1, hp2, hl]

/-- Claim C10, witness: two refs of the main frame whose entries share
role `"button"` and name `"Go"` (differing in their stored frameId)
resolve identically. -/
theorem C10_locator_depends_on_role_name_only_witness :
    getLocatorForRefM
        [(("" : String), [(("s1e1" : String), { role := "button", name := "Go", frameId := some ("F") : RefEntry }),
          (("s1e2" : String), { role := "button", name := "Go" : RefEntry })])] none ("s1e1") =
      getLocatorForRefM
        [(("" : String), [(("s1e1" : String), { role := "button", name := "Go", frameId := some ("F") : RefEntry }),
          (("s1e2" : String), { role := "button", name := "Go" : RefEntry })])] none ("s1e2") :=
  (C10_locator_depends_on_role_name_only
    [(("" : String), [(("s1e1" : String), { role := "button", name := "Go", frameId := some ("F") : RefEntry }),
      (("s1e2" : String), { role := "button", name := "Go" : RefEntry })])]
    none ("s1e1") ("s1e2")
    { role := "button", name := "Go", frameId := some ("F") }
    { role := "button", name := "Go" } ("t") [] false true
    (by decide) (by decide) rfl rfl rfl rfl rfl rfl).1

/-- Claim C9, counterexample: on the top-level document (frame key `""`)
a failed script evaluation is swallowed — the collector returns a
success snapshot with the empty-marker line instead of throwing, and it
overwrites the main-frame entry set (the previously stored ref `"s1e1"`
is gone).  This contradicts the claim for the top-level target. -/
theorem C9_counterexample :
    getRefEntry
        (snapshotMainFrameM (setRefMap [] ("") (mainEntries [⟨"button", "Old"⟩]))
          (.error ())).2 ("") ("s1e1") = none ∧
    (snapshotMainFrameM (setRefMap [] ("") (mainEntries [⟨"button", "Old"⟩]))
        (.error ())).1.lines =
      ["- document [ref=s1e0]:",
       "  - (no focusable elements; page may have loaded in an iframe)"] := by
  constructor
  · decide
  · decide

/-- Claim C9, amended: for iframe selectors the in-page collector throws
on a failed evaluation and leaves the reference store untouched; for the
top-level document a failed evaluation is caught instead — the collector
returns a success snapshot with zero entries and overwrites the
main-frame entry set with the empty set. -/
theorem C9_eval_failure_behavior :
    (∀ (store : RefStore) (sel : String),
      snapshotFrameM store sel (.error ()) = (.error .frameEvalFailed, store)) ∧
    (∀ store : RefStore,
      snapshotMainFrameM store (.error ()) =
        ({ lines := ["- document [ref=s1e0]:",
            "  - (no focusable elements; page may have loaded in an iframe)"],
           refPfx := "s1e" },
         setRefMap store ("") [])) := by
  exact ⟨fun _ _ => rfl, fun _ => rfl⟩

/-- Claim C5, counterexample: a submit input with no aria-label, no
title, empty placeholder, empty value and empty text is named `""` by
the in-page collector, not the `"(unnamed)"` sentinel the claim
requires for elements with no derivable name. -/
theorem C5_counterexample :
    getName { isHTMLInput := true, inputType := "submit" } = "" ∧
    getName { isHTMLInput := true, inputType := "submit" } ≠ "(unnamed)" := by
  constructor
  · decide
  · decide

/-- Claim C5, amended: the in-page name derivation is deterministic and
total in the priority order aria-label, title, placeholder (inputs),
value (submit/button/reset inputs), trimmed text, sentinel — an element
with a truthy title (and no aria-label) always reports the trimmed
title regardless of its placeholder; but a submit/button/reset input
whose value and text are empty reports the empty string, and only
elements outside the input-special branches fall back to the
`"(unnamed)"` sentinel. -/
theorem C5_name_priority (el : Element) :
    (truthyOpt el.ariaLabel = false → truthyOpt el.title = true →
      getName el = jsTrim (el.title.getD (""))) ∧
    (truthyOpt el.ariaLabel = false → truthyOpt el.title = false →
      el.isHTMLInput = true → el.placeholder = "" →
      (el.inputType = "submit" ∨ el.inputType = "button" ∨ el.inputType = "reset") →
      el.value = "" → jsTrim (el.textContent.getD ("")) = "" →
      getName el = "") ∧
    (truthyOpt el.ariaLabel = false → truthyOpt el.title = false →
      (el.isHTMLInput && jsTruthy el.placeholder) = false →
      (el.isHTMLInput &&
        (el.inputType == "submit" || el.inputType == "button" || el.inputType == "reset")) = false →
      jsTrim (el.textContent.getD ("")) = "" →
      getName el = "(unnamed)") := by
  refine ⟨?_, ?_, ?_⟩
  · intro ha ht
    simp [getName, ha, ht]
  · intro ha ht hi hp htype hv htc
    rcases htype with h | h | h <;>
      simp [getName, ha, ht, hi, hp, h, hv, htc, jsTruthy, jsOr, jsSlice]
  · intro ha ht hpf hbf htc
    unfold getName
    rw [ha, ht, hpf, hbf, htc]
    simp only [Bool.false_eq_true, if_false]
    decide

/-- Claim C5, witness: the three branches at concrete elements — a
titled input with a placeholder is named by the title; an empty submit
input is named `""`; a plain empty element gets the sentinel. -/
theorem C5_name_priority_witness :
    getName { title := some ("T"), isHTMLInput := true, placeholder := "P" } = "T" ∧
    getName { isHTMLInput := true, inputType := "submit" } = "" ∧
    getName {} = "(unnamed)" := by
  refine ⟨?_, ?_, ?_⟩
  · exact ((C5_name_priority
      { title := some ("T"), isHTMLInput := true, placeholder := "P" }).1
      (by decide) (by decide)).trans (by decide)
  · exact (C5_name_priority { isHTMLInput := true, inputType := "submit" }).2.1
      (by decide) (by decide) rfl rfl (Or.inl rfl) rfl (by decide)
  · exact (C5_name_priority {}).2.2 (by decide) (by decide) (by decide) (by decide)
      (by decide)

/-- `slice(0, n)` bounds the length by `n`. -/
theorem jsSlice_length_le (s : String) (n : Nat) : (jsSlice s n).length ≤ n := by
  show (s.data.take n).length ≤ n
  exact List.length_take_le n s.data

set_option maxRecDepth 4000 in
/-- Claim C6, counterexample: the in-page collector stores an aria-label
name untruncated — a 201-character aria-label yields a 201-character
name, above the 200-character bound the claim asserts for every tier. -/
theorem C6_counterexample :
    200 < (getName { ariaLabel := some (String.mk (List.replicate 201 ('a'))) }).length := by
  decide

/-- Claim C6, amended: names stored by the protocol tiers are truncated
to at most 200 characters — Tier A's `axName` and Tier B's label both
obey the bound — while the in-page collector truncates only its
text-content and value-fallback sources, storing aria-label, title,
placeholder and value derived names untruncated. -/
theorem C6_protocol_names_bounded :
    (∀ n : AXNode, (axName n).length ≤ 200) ∧
    (∀ aria titleAttr tag : Option String, (domLabel aria titleAttr tag).length ≤ 200) := by
  constructor
  · intro n
    simp only [axName]
    split
    · exact jsSlice_length_le _ _
    · decide
  · intro a t g
    simp only [domLabel, jsOr]
    split
    · exact jsSlice_length_le _ _
    · decide

/-- Every node emitted by the fueled walk passed the strict filter. -/
theorem keepStrict_of_mem_walkFuel (nodes : List AXNode) :
    ∀ (fuel : Nat) (id : String) (n : AXNode),
      n ∈ walkFuel nodes fuel id → keepStrict n = true := by
  intro fuel
  induction fuel with
  | zero => intro id n h; simp [walkFuel] at h
  | succ f ih =>
    intro id n h
    simp only [walkFuel] at h
    cases hb : byIdGet nodes id with
    | none => rw [hb] at h; simp at h
    | some node =>
      rw [hb] at h
      rcases List.mem_append.mp h with h1 | h2
      · by_cases hk : keepStrict node = true
        · rw [if_pos hk] at h1
          rw [List.mem_singleton.mp h1]
          exact hk
        · rw [if_neg hk] at h1
          simp at h1
      · rcases List.mem_flatten.mp h2 with ⟨l, hl, hn⟩
        rcases List.mem_map.mp hl with ⟨cid, _, rfl⟩
        exact ih cid n hn

/-- Every node produced by the strict pass passed the strict filter. -/
theorem keepStrict_of_mem_strictWalk (nodes : List AXNode) (n : AXNode)
    (h : n ∈ strictWalk nodes) : keepStrict n = true := by
  simp only [strictWalk] at h
  rcases List.mem_flatten.mp h with ⟨l, hl, hn⟩
  rcases List.mem_map.mp hl with ⟨root, _, rfl⟩
  by_cases ht : truthyOpt root.nodeId = true
  · rw [if_pos ht] at hn
    exact keepStrict_of_mem_walkFuel nodes _ _ n hn
  · rw [if_neg ht] at hn
    simp at hn

/-- The `generic`-role AX node used in the C7 example. -/
def exNodeGeneric : AXNode :=
  { nodeId := some ("2"), role := some ("generic"), backendDOMNodeId := some 2 }

/-- The `button`-role AX node used in the C7 example. -/
def exNodeButton : AXNode :=
  { nodeId := some ("1"), role := some ("button"), name := some ("OK"),
    backendDOMNodeId := some 1 }

/-- An AX node whose role is outside the interactive set (used to reach
the second-chance pass in the C7 witness). -/
def exNodeTooltip : AXNode :=
  { nodeId := some ("3"), role := some ("tooltip"), name := some ("hi"),
    backendDOMNodeId := some 7 }

/-- Claim C7, counterexample: a non-ignored `generic`-role node with a
backend DOM node id and no name is accepted by the strict walk itself
(alongside a button node, so the second-chance pass never runs), even
though `generic` is not in the fixed interactive-role set — the strict
walk does not restrict to that set. -/
theorem C7_counterexample :
    collectInteractiveNodes [exNodeButton, exNodeGeneric] =
      [exNodeButton, exNodeGeneric] ∧
    axRole exNodeGeneric = "generic" ∧
    exNodeGeneric.name = none ∧
    INTERACTIVE_ROLES.contains ("generic") = false := by
  refine ⟨by decide, by decide, by decide, by decide⟩

/-- Claim C7, amended: the strict walk includes only nodes that are not
ignored, carry a backend DOM node id, and whose role is in the
interactive-role set or is `"generic"` (the default when no role is
reported); when the strict walk yields nothing on a nonempty node list,
the collector instead returns every node that is not ignored, carries a
backend DOM node id, and has a truthy role value or name value. -/
theorem C7_walk_filters (nodes : List AXNode) :
    (∀ n ∈ strictWalk nodes,
      n.ignored = false ∧ n.backendDOMNodeId.isSome = true ∧
        (INTERACTIVE_ROLES.contains (axRole n) = true ∨ axRole n = "generic")) ∧
    (strictWalk nodes = [] → nodes ≠ [] →
      collectInteractiveNodes nodes = nodes.filter secondChance) ∧
    (strictWalk nodes ≠ [] → collectInteractiveNodes nodes = strictWalk nodes) := by
  refine ⟨?_, ?_, ?_⟩
  · intro n hn
    have hk := keepStrict_of_mem_strictWalk nodes n hn
    simp only [keepStrict, isInteractive, Bool.and_eq_true, Bool.or_eq_true,
      Bool.not_eq_true', beq_iff_eq] at hk
    exact ⟨hk.1.1, hk.1.2, hk.2⟩
  · intro h1 h2
    have hne : nodes.isEmpty = false := by
      cases nodes with
      | nil => exact absurd rfl h2
      | cons a l => rfl
    simp [collectInteractiveNodes, h1, hne]
  · intro h
    have hne : (strictWalk nodes).isEmpty = false := by
      cases hsw : strictWalk nodes with
      | nil => exact absurd hsw h
      | cons a l => rfl
    simp [collectInteractiveNodes, hne]

/-- Claim C7, witness: the strict-pass filter facts at the button node,
the strict result being kept when nonempty, and the second-chance pass
on a list whose strict walk is empty. -/
theorem C7_walk_filters_witness :
    (exNodeButton.ignored = false ∧ exNodeButton.backendDOMNodeId.isSome = true ∧
      (INTERACTIVE_ROLES.contains (axRole exNodeButton) = true ∨
        axRole exNodeButton = "generic")) ∧
    collectInteractiveNodes [exNodeButton, exNodeGeneric] =
      strictWalk [exNodeButton, exNodeGeneric] ∧
    collectInteractiveNodes [exNodeTooltip] =
      List.filter secondChance [exNodeTooltip] :=
  ⟨(C7_walk_filters [exNodeButton, exNodeGeneric]).1 exNodeButton (by decide),
   (C7_walk_filters [exNodeButton, exNodeGeneric]).2.2 (by decide),
   (C7_walk_filters [exNodeTooltip]).2.1 (by decide) (by decide)⟩

/-- An included layout row has a stored bounds row of at least four
coordinates with positive width and height. -/
theorem rowData_bounds (doc : DocSnap) (strTable : List String) (i domIdx : Nat)
    (b0 b1 b2 b3 : ℚ) (role label : String)
    (h : rowData doc strTable i domIdx = some (b0, b1, b2, b3, role, label)) :
    ∃ rest, doc.boundsL.get? i = some (b0 :: b1 :: b2 :: b3 :: rest) ∧
      0 < b2 ∧ 0 < b3 := by
  unfold rowData at h
  split at h
  next c0 c1 c2 c3 rest hg =>
    split at h
    · exact absurd h (by simp)
    next hbb =>
      dsimp only at h
      split at h
      · rw [Option.some.injEq] at h
        obtain ⟨rfl, rfl, rfl, rfl, rfl, rfl⟩ := h
        rw [Bool.or_eq_true, not_or] at hbb
        refine ⟨rest, hg, ?_, ?_⟩
        · have := hbb.1
          simp only [decide_eq_true_eq] at this
          exact lt_of_not_le this
        · have := hbb.2
          simp only [decide_eq_true_eq] at this
          exact lt_of_not_le this
      · exact absurd h (by simp)
  next hg => exact absurd h (by simp)

/-- Every entry the Tier B loop emits stems from an include-decided row:
its box is positive and its stored point is the box centre shifted by
the scroll offset and the iframe viewport origin; the entry has no
backend node id. -/
theorem domSnapRows_mem (doc : DocSnap) (strTable : List String) (rect : Rect)
    (refPfx frameId : String) :
    ∀ (rows : List (Nat × Nat)) (refIdx : Nat) (r : String) (e : CDPRefEntry),
      (r, e) ∈ (domSnapRows doc strTable rect refPfx frameId rows refIdx).1 →
      ∃ i domIdx b0 b1 b2 b3 rest,
        (i, domIdx) ∈ rows ∧
        doc.boundsL.get? i = some (b0 :: b1 :: b2 :: b3 :: rest) ∧
        0 < b2 ∧ 0 < b3 ∧
        e.backendDOMNodeId = none ∧
        e.viewportClickPoint =
          some { x := rect.x + (b0 + b2 / 2 - doc.scrollOffsetX),
                 y := rect.y + (b1 + b3 / 2 - doc.scrollOffsetY) } := by
  intro rows
  induction rows with
  | nil => intro refIdx r e h; simp [domSnapRows] at h
  | cons hd tl ih =>
    intro refIdx r e h
    obtain ⟨i, domIdx⟩ := hd
    simp only [domSnapRows] at h
    cases hrd : rowData doc strTable i domIdx with
    | none =>
      rw [hrd] at h
      obtain ⟨i', d', b0, b1, b2, b3, rest, hmem, hrest⟩ := ih refIdx r e h
      exact ⟨i', d', b0, b1, b2, b3, rest, List.mem_cons_of_mem _ hmem, hrest⟩
    | some out =>
      obtain ⟨b0, b1, b2, b3, role, label⟩ := out
      rw [hrd] at h
      simp only [List.mem_cons] at h
      rcases h with h | h
      · rw [Prod.mk.injEq] at h
        obtain ⟨hr, he⟩ := h
        subst he
        obtain ⟨rest, hg, h2, h3⟩ :=
          rowData_bounds doc strTable i domIdx b0 b1 b2 b3 role label hrd
        exact ⟨i, domIdx, b0, b1, b2, b3, rest, List.mem_cons_self _ _, hg, h2, h3,
          rfl, rfl⟩
      · obtain ⟨i', d', c0, c1, c2, c3, rest, hmem, hrest⟩ := ih (refIdx + 1) r e h
        exact ⟨i', d', c0, c1, c2, c3, rest, List.mem_cons_of_mem _ hmem, hrest⟩

/-- Claim C8: every entry the Tier B layout-snapshot collector stores
comes from a laid-out row whose box has positive width and height, and
its viewport click point is exactly the iframe viewport origin plus the
box centre minus the document scroll offset:
`x = rect.x + (b0 + b2/2 - scrollOffsetX)` and
`y = rect.y + (b1 + b3/2 - scrollOffsetY)`. -/
theorem C8_tierB_positive_box_and_click_point (doc : DocSnap)
    (strTable : List String) (rect : Rect) (frameKey refPfx frameId : String)
    (out : List String × List (String × CDPRefEntry))
    (h : snapshotFrameViaDOMSnapshotM (some (doc, strTable)) (some rect)
      frameKey refPfx frameId = some out)
    (r : String) (e : CDPRefEntry) (hm : (r, e) ∈ out.2) :
    ∃ i domIdx b0 b1 b2 b3 rest,
      (i, domIdx) ∈ doc.nodeIndexL.enum ∧
      doc.boundsL.get? i = some (b0 :: b1 :: b2 :: b3 :: rest) ∧
      0 < b2 ∧ 0 < b3 ∧
      e.viewportClickPoint =
        some { x := rect.x + (b0 + b2 / 2 - doc.scrollOffsetX),
               y := rect.y + (b1 + b3 / 2 - doc.scrollOffsetY) } := by
  simp only [snapshotFrameViaDOMSnapshotM] at h
  split at h
  · exact absurd h (by simp)
  · rw [Option.some.injEq] at h
    subst h
    obtain ⟨i, domIdx, b0, b1, b2, b3, rest, hmem, hg, h2, h3, _, hp⟩ :=
      domSnapRows_mem doc strTable rect refPfx frameId doc.nodeIndexL.enum 0 r e hm
    exact ⟨i, domIdx, b0, b1, b2, b3, rest, hmem, hg, h2, h3, hp⟩

/-- The Tier B example document: one laid-out node, a 40x20 box at
(100, 200), tag `DIV` carrying `role="button"`, no scroll offset. -/
def c8Doc : DocSnap :=
  { nodeIndexL := [0], boundsL := [[100, 200, 40, 20]],
    nodeNameL := [0], attributesL := [[1, 2]] }

/-- The string table of the Tier B example. -/
def c8Strings : List String := ["DIV", "role", "button"]

/-- The iframe viewport rect of the Tier B example: origin (50, 300). -/
def c8Rect : Rect := { x := 50, y := 300, w := 600, h := 400 }

/-- The entry the Tier B example produces.  The click point is written
as the unevaluated centre-shift expression (the kernel cannot normalise
rational arithmetic); `c8Entry_click_point_value` evaluates it. -/
def c8Entry : CDPRefEntry :=
  { role := "button", name := "DIV", frameId := "FID",
    viewportClickPoint :=
      some { x := c8Rect.x + (100 + 40 / 2 - c8Doc.scrollOffsetX),
             y := c8Rect.y + (200 + 20 / 2 - c8Doc.scrollOffsetY) } }

/-- The example click point evaluates to (170, 510): iframe origin
(50, 300) plus box centre (120, 210), no scroll offset. -/
theorem c8Entry_click_point_value :
    c8Entry.viewportClickPoint = some { x := 170, y := 510 } := by
  norm_num [c8Entry, c8Rect, c8Doc]

/-- Claim C8, witness: the Tier B collector on the example document
stores exactly one entry, and the theorem applies to it. -/
theorem C8_tierB_positive_box_and_click_point_witness :
    ∃ i domIdx b0 b1 b2 b3 rest,
      (i, domIdx) ∈ c8Doc.nodeIndexL.enum ∧
      c8Doc.boundsL.get? i = some (b0 :: b1 :: b2 :: b3 :: rest) ∧
      0 < b2 ∧ 0 < b3 ∧
      c8Entry.viewportClickPoint =
        some { x := c8Rect.x + (b0 + b2 / 2 - c8Doc.scrollOffsetX),
               y := c8Rect.y + (b1 + b3 / 2 - c8Doc.scrollOffsetY) } :=
  C8_tierB_positive_box_and_click_point c8Doc c8Strings c8Rect ("iframe") ("f1e")
    ("FID")
    (["- frame iframe [ref=f1e0] (DOMSnapshot):", "  - button \"DIV\" [ref=f1e1]"],
      [(("f1e1" : String), c8Entry)])
    rfl ("f1e1") c8Entry (List.mem_cons_self _ _)

/-- The click branch determined by the populated resolution field of an
entry: viewport point, else backend node, else role+name locator. -/
def dispatchOf (fs : Option String) (e : RefEntry) : ClickDispatch :=
  match e.viewportClickPoint with
  | some p => .cdpPoint p
  | none =>
    match e.backendDOMNodeId with
    | some b => .cdpNode b
    | none => .locatorClick { frameSelector := fs, role := e.role, name := e.name }

/-- A Tier B style entry resolved by a viewport point (C4 example). -/
def c4PointEntry : RefEntry :=
  { role := "button", name := "x", viewportClickPoint := some { x := 1, y := 2 } }

/-- Claim C4, counterexample: when `click` is called without a browser
context, an entry whose populated strategy is the viewport point is
dispatched through the locator branch instead — the branch is not fully
determined by which field is populated; it also depends on the context
argument at click time. -/
theorem C4_counterexample :
    clickM [(("k" : String), [(("f1e1" : String), c4PointEntry)])] ("f1e1")
        (some ("k")) false =
      (.ok (.locatorClick { frameSelector := some ("k"), role := "button", name := "x" }),
       [(("k" : String), [(("f1e1" : String), c4PointEntry)])]) ∧
    c4PointEntry.viewportClickPoint.isSome = true := by
  exact ⟨rfl, rfl⟩

/-- Claim C4, amended: every entry stored by a collector tier has
exactly one populated resolution strategy — in-page entries carry
neither CDP field (locator), Tier A entries carry exactly the backend
node id, Tier B entries carry exactly the viewport point — and whenever
a browser context is supplied, `click` runs exactly the branch
determined by the populated field; without a context, CDP-resolved
entries fall back to the locator branch. -/
theorem C4_one_strategy_per_entry :
    (∀ (pfx : String) (raw : List PageNode) (r : String) (e : RefEntry),
      (r, e) ∈ refsFrom pfx raw →
      e.backendDOMNodeId = none ∧ e.viewportClickPoint = none) ∧
    (∀ (nodes : List AXNode) (lbl pfx fid r : String) (e : CDPRefEntry),
      (r, e) ∈ (buildSnapshotFromAXNodes nodes lbl pfx fid).2 →
      e.backendDOMNodeId.isSome = true ∧ e.viewportClickPoint = none) ∧
    (∀ (doc : DocSnap) (strTable : List String) (rect : Rect)
      (pfx fid : String) (rows : List (Nat × Nat)) (refIdx : Nat)
      (r : String) (e : CDPRefEntry),
      (r, e) ∈ (domSnapRows doc strTable rect pfx fid rows refIdx).1 →
      e.viewportClickPoint.isSome = true ∧ e.backendDOMNodeId = none) ∧
    (∀ (store : RefStore) (fs : Option String) (ref : String) (e : RefEntry),
      getRefEntry store (fs.getD ("")) ref = some e →
      clickM store ref fs true = (.ok (dispatchOf fs e), store)) := by
  refine ⟨?_, ?_, ?_, ?_⟩
  · intro pfx raw r e h
    rcases List.mem_map.mp h with ⟨p, _, hp⟩
    rw [Prod.mk.injEq] at hp
    rw [← hp.2]
    exact ⟨rfl, rfl⟩
  · intro nodes lbl pfx fid r e h
    simp only [buildSnapshotFromAXNodes] at h
    rcases List.mem_filterMap.mp h with ⟨p, _, hp⟩
    cases hb : p.2.backendDOMNodeId with
    | none => rw [hb] at hp; simp at hp
    | some b =>
      rw [hb] at hp
      rw [Option.some.injEq, Prod.mk.injEq] at hp
      rw [← hp.2]
      exact ⟨rfl, rfl⟩
  · intro doc strTable rect pfx fid rows refIdx r e h
    obtain ⟨_, _, _, _, _, _, _, _, _, _, _, hb, hp⟩ :=
      domSnapRows_mem doc strTable rect pfx fid rows refIdx r e h
    rw [hp, hb]
    exact ⟨rfl, rfl⟩
  · intro store fs ref e h
    cases hp : e.viewportClickPoint with
    | some p => simp [clickM, h, hp, dispatchOf]
    | none =>
      cases hb : e.backendDOMNodeId with
      | some b => simp [clickM, h, hp, hb, dispatchOf]
      | none => simp [clickM, h, hp, hb, dispatchOf, getLocatorForRefM]

/-- Claim C4, witness: the per-tier strategy facts and the click branch
at concrete inputs — an in-page entry, a Tier A entry, a Tier B entry,
and a click with a context present on a viewport-point entry. -/
theorem C4_one_strategy_per_entry_witness :
    ((mkRefEntry ⟨"button", "B"⟩).backendDOMNodeId = none ∧
      (mkRefEntry ⟨"button", "B"⟩).viewportClickPoint = none) ∧
    ({ role := "button", name := "Hi", frameId := "F9",
        backendDOMNodeId := some 4 : CDPRefEntry }.backendDOMNodeId.isSome = true ∧
      { role := "button", name := "Hi", frameId := "F9",
        backendDOMNodeId := some 4 : CDPRefEntry }.viewportClickPoint = none) ∧
    (c8Entry.viewportClickPoint.isSome = true ∧ c8Entry.backendDOMNodeId = none) ∧
    clickM [(("k" : String), [(("f1e1" : String), c4PointEntry)])] ("f1e1")
        (some ("k")) true =
      (.ok (dispatchOf (some ("k")) c4PointEntry),
       [(("k" : String), [(("f1e1" : String), c4PointEntry)])]) :=
  ⟨C4_one_strategy_per_entry.1 ("s1e") [⟨"button", "B"⟩] ("s1e1")
      (mkRefEntry ⟨"button", "B"⟩) (by decide),
   C4_one_strategy_per_entry.2.1
      [{ nodeId := some ("9"), role := some ("button"), name := some ("Hi"),
         backendDOMNodeId := some 4 }] ("lbl") ("f1e") ("F9") ("f1e1")
      { role := "button", name := "Hi", frameId := "F9", backendDOMNodeId := some 4 }
      (by decide),
   C4_one_strategy_per_entry.2.2.1 c8Doc c8Strings c8Rect ("f1e") ("FID")
      c8Doc.nodeIndexL.enum 0 ("f1e1") c8Entry (List.mem_cons_self _ _),
   C4_one_strategy_per_entry.2.2.2
      [(("k" : String), [(("f1e1" : String), c4PointEntry)])] (some ("k")) ("f1e1")
      c4PointEntry rfl⟩

/-- Every node the collector returns carries a backend DOM node id
(both the strict filter and the second-chance filter require one). -/
theorem backend_of_mem_collect (nodes : List AXNode) (n : AXNode)
    (h : n ∈ collectInteractiveNodes nodes) : n.backendDOMNodeId.isSome = true := by
  simp only [collectInteractiveNodes] at h
  split at h
  · have := (List.mem_filter.mp h).2
    simp only [secondChance, Bool.and_eq_true] at this
    exact this.1.2
  · have := keepStrict_of_mem_strictWalk nodes n h
    simp only [keepStrict, Bool.and_eq_true] at this
    exact this.1.2

/-- Tier A stores no entry only when the collector found no node at
all. -/
theorem collect_nil_of_entries_nil (nodes : List AXNode) (lbl pfx fid : String)
    (h : (buildSnapshotFromAXNodes nodes lbl pfx fid).2 = []) :
    collectInteractiveNodes nodes = [] := by
  cases hI : collectInteractiveNodes nodes with
  | nil => rfl
  | cons n t =>
    exfalso
    have hb : n.backendDOMNodeId.isSome = true :=
      backend_of_mem_collect nodes n (hI ▸ List.mem_cons_self n t)
    obtain ⟨b, hb2⟩ := Option.isSome_iff_exists.mp hb
    have hcontra : (buildSnapshotFromAXNodes nodes lbl pfx fid).2 ≠ [] := by
      simp only [buildSnapshotFromAXNodes, hI]
      simp [List.enum, List.enumFrom, hb2]
    exact hcontra h

/-- The C2 counterexample environment: the in-page collector would
succeed with one node, the context is present and a frame id resolves,
the accessibility tree is empty and no layout snapshot is available. -/
def c2Env : SnapFrameEnv :=
  { inPageEval := .ok [⟨"button", "X"⟩], contextPresent := true,
    frameIdFound := some ("F"), axNodes := [], domResp := none,
    iframeRect := none }

/-- Claim C2, counterexample: on a chained frame selector the in-page
collector is never attempted — the call goes straight to Tier A (and
then Tier B) even though the in-page evaluation would have succeeded —
so the tiers do not run in the claimed order for every frame selector. -/
theorem C2_counterexample :
    (browserSnapshotFrameM [] ("iframe#a >> iframe#b") c2Env).1 =
      [Tier.tierA, Tier.tierB] ∧
    Tier.inPage ∉ (browserSnapshotFrameM [] ("iframe#a >> iframe#b") c2Env).1 := by
  exact ⟨rfl, by decide⟩

/-- Claim C2, amended: for a nonempty, non-chained frame selector (one
without the `>>` chain delimiter), when a protocol session and frame id
are available, the tiers run strictly in order — the in-page collector
alone on success; Tier A only after an in-page failure; Tier B only
when Tier A stores zero entries — and when Tier B also produces nothing
the call returns a success result whose text is the frame header plus
the `none matched` marker line.  Chained selectors skip the in-page
tier and start at Tier A. -/
theorem C2_tier_order (store : RefStore) (sel : String) (env : SnapFrameEnv)
    (fid : String) (hsel : (sel == "") = false)
    (hch : hasChainDelim sel = false) (hctx : env.contextPresent = true)
    (hfid : env.frameIdFound = some fid) :
    (∀ raw, env.inPageEval = .ok raw →
      (browserSnapshotFrameM store sel env).1 = [Tier.inPage] ∧
      (browserSnapshotFrameM store sel env).2.1.isError = false) ∧
    (env.inPageEval = .error () →
      (buildSnapshotFromAXNodes env.axNodes sel ("f1e") fid).2 ≠ [] →
      (browserSnapshotFrameM store sel env).1 = [Tier.inPage, Tier.tierA] ∧
      (browserSnapshotFrameM store sel env).2.1.isError = false) ∧
    (env.inPageEval = .error () →
      (buildSnapshotFromAXNodes env.axNodes sel ("f1e") fid).2 = [] →
      (browserSnapshotFrameM store sel env).1 =
        [Tier.inPage, Tier.tierA, Tier.tierB] ∧
      (snapshotFrameViaDOMSnapshotM env.domResp env.iframeRect sel ("f1e") fid =
          none →
        (browserSnapshotFrameM store sel env).2.1 =
          { lines := [("- frame " ++ sel ++ " [ref=" ++ ("f1e") ++ "0]:"),
              ("  - (CDP: " ++ toString env.axNodes.length ++
                " AX nodes, none matched)")],
            isError := false })) := by
  refine ⟨?_, ?_, ?_⟩
  · intro raw hE
    constructor
    · simp [browserSnapshotFrameM, hsel, hch, snapshotFrameM, hE]
    · simp [browserSnapshotFrameM, hsel, hch, snapshotFrameM, hE]
  · intro hE hA
    have hAe : (buildSnapshotFromAXNodes env.axNodes sel ("f1e") fid).2.isEmpty = false := by
      cases hx : (buildSnapshotFromAXNodes env.axNodes sel ("f1e") fid).2 with
      | nil => exact absurd hx hA
      | cons a l => rfl
    constructor
    · simp [browserSnapshotFrameM, hsel, hch, snapshotFrameM, hE, cdpPhase, hctx,
        hfid, hAe]
    · simp [browserSnapshotFrameM, hsel, hch, snapshotFrameM, hE, cdpPhase, hctx,
        hfid, hAe]
  · intro hE hA
    have hAe : (buildSnapshotFromAXNodes env.axNodes sel ("f1e") fid).2.isEmpty = true := by
      rw [hA]; rfl
    constructor
    · cases hd : snapshotFrameViaDOMSnapshotM env.domResp env.iframeRect sel ("f1e") fid with
      | some bRes =>
        simp [browserSnapshotFrameM, hsel, hch, snapshotFrameM, hE, cdpPhase, hctx,
          hfid, hAe, hd]
      | none =>
        simp [browserSnapshotFrameM, hsel, hch, snapshotFrameM, hE, cdpPhase, hctx,
          hfid, hAe, hd]
    · intro hd
      have hcoll : collectInteractiveNodes env.axNodes = [] :=
        collect_nil_of_entries_nil env.axNodes sel ("f1e") fid hA
      simp [browserSnapshotFrameM, hsel, hch, snapshotFrameM, hE, cdpPhase, hctx,
        hfid, hAe, hd, buildSnapshotFromAXNodes, hcoll]

/-- The C2 witness environment for the all-tiers-exhausted branch. -/
def c2EnvEmpty : SnapFrameEnv :=
  { inPageEval := .error (), contextPresent := true, frameIdFound := some ("F"),
    axNodes := [], domResp := none, iframeRect := none }

/-- Claim C2, witness: a non-chained selector with a succeeding in-page
collector attempts only the in-page tier; with a failing in-page
collector, an empty accessibility tree and no layout snapshot, all
three tiers are attempted and the call still succeeds with the marker
line. -/
theorem C2_tier_order_witness :
    ((browserSnapshotFrameM [] ("iframe") c2Env).1 = [Tier.inPage] ∧
      (browserSnapshotFrameM [] ("iframe") c2Env).2.1.isError = false) ∧
    ((browserSnapshotFrameM [] ("iframe") c2EnvEmpty).1 =
        [Tier.inPage, Tier.tierA, Tier.tierB] ∧
      (browserSnapshotFrameM [] ("iframe") c2EnvEmpty).2.1 =
        { lines := [("- frame " ++ ("iframe") ++ " [ref=" ++ ("f1e") ++ "0]:"),
            ("  - (CDP: " ++ toString (List.length ([] : List AXNode)) ++
              " AX nodes, none matched)")],
          isError := false }) :=
  ⟨(C2_tier_order [] ("iframe") c2Env ("F") rfl rfl rfl rfl).1
      [⟨"button", "X"⟩] rfl,
   ⟨((C2_tier_order [] ("iframe") c2EnvEmpty ("F") rfl rfl rfl rfl).2.2 rfl rfl).1,
    ((C2_tier_order [] ("iframe") c2EnvEmpty ("F") rfl rfl rfl rfl).2.2 rfl rfl).2 rfl⟩⟩

end Browserose
